import Mathlib

/-!
Verification of `lib/model/folder_summary.go` (folderSummaryService) against
its natural-language specification.

The Go service is shallowly embedded: machine integers become `Int`
(overflow plays no role in the claims), time instants and durations become
nanosecond counts as in Go's `time` package, Go maps used as sets become
duplicate-free lists with idempotent insert, the `model.Model`,
`config.Wrapper` and event-bus collaborators become explicit record
parameters of pure functions, and channels/goroutines become explicit
state passing: the outcome of the non-blocking send on the `immediate`
channel is an explicit boolean input, and event emission is the returned
list of events.
-/

namespace FolderSummary

/-- Size aggregate, mirroring Go `db.Counts` as used by the snapshot
queries (`GlobalSize`, `LocalSize`, `NeedSize`, `ReceiveOnlyChangedSize`). -/
structure Counts where
  files : Int
  directories : Int
  symlinks : Int
  deleted : Int
  bytes : Int
deriving DecidableEq, Repr

/-- Go `Counts.TotalItems() = Files + Directories + Symlinks + Deleted`. -/
def Counts.totalItems (c : Counts) : Int :=
  c.files + c.directories + c.symlinks + c.deleted

/-- The part of the database snapshot read by `Summary`: the four size
aggregates and the two sequence numbers
(`snap.Sequence(protocol.LocalDeviceID)` and
`snap.Sequence(protocol.GlobalDeviceID)`). -/
structure DBSnapshot where
  globalSize : Counts
  localSize : Counts
  needSize : Counts
  receiveOnlyChangedSize : Counts
  localSequence : Int
  remoteSequence : Int
deriving DecidableEq, Repr

/-- Result of the `FolderErrors` query: the two sentinel errors the code
compares against (`ErrFolderPaused`, `errFolderNotRunning`) and any other
error, carrying its message. -/
inductive FolderError where
  | folderPaused : FolderError
  | folderNotRunning : FolderError
  | other : String → FolderError
deriving DecidableEq, Repr

/-- Go `config.FolderType`; `Summary` only distinguishes receive-only. -/
inductive FolderType where
  | sendReceive : FolderType
  | sendOnly : FolderType
  | receiveOnly : FolderType
deriving DecidableEq, Repr

/-- One entry of `FolderConfiguration.Devices`. -/
structure DeviceCfg where
  deviceID : String
deriving DecidableEq, Repr

/-- The slice of `config.FolderConfiguration` that `folder_summary.go`
reads: identifier, device list, `IgnoreDelete`, `Type`. -/
structure FolderCfg where
  id : String
  devices : List DeviceCfg
  ignoreDelete : Bool
  folderType : FolderType
deriving DecidableEq, Repr

/-- The Go zero value of `config.FolderConfiguration`, produced by
indexing the `Folders()` map at a missing key. -/
def emptyFolderCfg : FolderCfg :=
  { id := "", devices := [], ignoreDelete := false, folderType := FolderType.sendReceive }

/-- The `config.Wrapper` collaborator: the list of configured folders. -/
structure Config where
  folders : List FolderCfg
deriving DecidableEq, Repr

/-- Go `cfg.Folder(folder)`: lookup by ID returning `(fcfg, ok)`. -/
def Config.folder (cfg : Config) (id : String) : Option FolderCfg :=
  cfg.folders.find? (fun fc => fc.id == id)

/-- Go `cfg.Folders()[folder]`: map indexing that yields the zero value
for a missing key. -/
def Config.foldersIndex (cfg : Config) (id : String) : FolderCfg :=
  (cfg.folder id).getD emptyFolderCfg

/-- The `model.Model` collaborator as read by the service, one query per
field.  `dbSnapshot` and the second component of `folderErrors` model the
Go multi-value returns with their error positions; `state` returns the
(state, stateChanged, err) triple of `Model.State`; `connection` is
whether `Model.Connection` reports the device connected; `completion` is
the (opaque) payload of `Model.Completion(dev, folder).Map()`. -/
structure ModelEnv where
  dbSnapshot : String → Except String DBSnapshot
  folderErrors : String → List String × Option FolderError
  folderProgressBytesCompleted : String → Int
  state : String → String × Int × Option String
  getIgnores : String → List String
  watchError : String → Option String
  connection : String → Bool
  completion : String → String → Int

/-- The summary record: the `map[string]interface{}` assembled by
`Summary`, one field per key it sets.  The receive-only block of six keys
is present only for receive-only folders, hence an `Option Counts`;
`error` and `watchError` are set only when the corresponding query
failed. -/
structure SummaryData where
  errors : Nat
  pullErrors : Nat
  invalid : String
  globalFiles : Int
  globalDirectories : Int
  globalSymlinks : Int
  globalDeleted : Int
  globalBytes : Int
  globalTotalItems : Int
  localFiles : Int
  localDirectories : Int
  localSymlinks : Int
  localDeleted : Int
  localBytes : Int
  localTotalItems : Int
  needFiles : Int
  needDirectories : Int
  needSymlinks : Int
  needDeletes : Int
  needBytes : Int
  needTotalItems : Int
  receiveOnlyChanged : Option Counts
  inSyncFiles : Int
  inSyncBytes : Int
  state : String
  stateChanged : Int
  error : Option String
  version : Int
  sequence : Int
  ignorePatterns : Bool
  watchError : Option String

/-- The error returned by `Summary`: either the `DBSnapshot` error or a
non-ignorable `FolderErrors` error. -/
inductive SummaryError where
  | dbError : String → SummaryError
  | folderErrorsError : String → SummaryError
deriving DecidableEq, Repr

/-- The record-assembly part of Go `Summary` (lines 90-155 of
`folder_summary.go`), after the two fallible queries have been resolved to
`snap` and the error list `errs`. -/
def buildSummary (cfg : Config) (env : ModelEnv) (folder : String)
    (snap : DBSnapshot) (errs : List String) : SummaryData :=
  let global := snap.globalSize
  let lcl := snap.localSize
  let need0 := snap.needSize
  let adjusted := need0.bytes - env.folderProgressBytesCompleted folder
  let clamped := if adjusted < 0 then 0 else adjusted
  let need : Counts := { need0 with bytes := clamped }
  let fcfg := cfg.folder folder
  let stq := env.state folder
  let seq := snap.localSequence + snap.remoteSequence
  { errors := errs.length
    pullErrors := errs.length
    invalid := ""
    globalFiles := global.files
    globalDirectories := global.directories
    globalSymlinks := global.symlinks
    globalDeleted := global.deleted
    globalBytes := global.bytes
    globalTotalItems := global.totalItems
    localFiles := lcl.files
    localDirectories := lcl.directories
    localSymlinks := lcl.symlinks
    localDeleted := lcl.deleted
    localBytes := lcl.bytes
    localTotalItems := lcl.totalItems
    needFiles := need.files
    needDirectories := need.directories
    needSymlinks := need.symlinks
    needDeletes :=
      match fcfg with
      | some fc => if fc.ignoreDelete then 0 else need.deleted
      | none => need.deleted
    needBytes := need.bytes
    needTotalItems := need.totalItems
    receiveOnlyChanged :=
      match fcfg with
      | some fc =>
          if fc.folderType = FolderType.receiveOnly then
            some snap.receiveOnlyChangedSize
          else none
      | none => none
    inSyncFiles := global.files - need.files
    inSyncBytes := global.bytes - need.bytes
    state := stq.1
    stateChanged := stq.2.1
    error := stq.2.2
    version := seq
    sequence := seq
    ignorePatterns :=
      (env.getIgnores folder).any
        (fun line => decide (0 < line.length) && !(line.startsWith ("//")))
    watchError := env.watchError folder }

/-- Go `Summary(folder)`: fails on a `DBSnapshot` error, fails on a
`FolderErrors` error other than the paused / not-running sentinels, and
otherwise assembles the record. -/
def Summary (cfg : Config) (env : ModelEnv) (folder : String) :
    Except SummaryError SummaryData :=
  match env.dbSnapshot folder with
  | Except.error e => Except.error (SummaryError.dbError e)
  | Except.ok snap =>
    let fe := env.folderErrors folder
    match fe.2 with
    | some (FolderError.other m) =>
        Except.error (SummaryError.folderErrorsError m)
    | _ => Except.ok (buildSummary cfg env folder snap fe.1)

/-- Go `const minSummaryInterval = time.Minute`, in nanoseconds. -/
def minSummaryInterval : Int := 60 * 1000000000

/-- Go `const pumpInterval = 2 * time.Second` in `calculateSummaries`,
in nanoseconds. -/
def pumpInterval : Int := 2 * 1000000000

/-- The dirty-set `c.folders` (a Go `map[string]struct{}`) embedded as a
duplicate-free list: `c.folders[folder] = struct{}{}` is an insert that is
a no-op when the key is present. -/
def dirtyInsert (s : List String) (f : String) : List String :=
  if f ∈ s then s else s ++ [f]

/-- Go `delete(c.folders, folder)`: removal of a key from the set. -/
def dirtyDelete (s : List String) (f : String) : List String :=
  s.filter (fun g => g ≠ f)

/-- The mutable state of the service that the claims are about: the
dirty-set `c.folders` and the liveness timestamp `c.lastEventReq`
(nanoseconds). -/
structure ServiceState where
  folders : List String
  lastEventReq : Int
deriving DecidableEq, Repr

/-- Go `OnEventRequest()`: record the current time as the liveness
timestamp. -/
def OnEventRequest (now : Int) (st : ServiceState) : ServiceState :=
  { st with lastEventReq := now }

/-- Go `foldersToHandle()`: if `time.Since(lastEventReq)` exceeds
`minSummaryInterval` return no folders (the dirty-set is left untouched);
otherwise return all dirty folders and clear the set. -/
def foldersToHandle (now : Int) (st : ServiceState) :
    List String × ServiceState :=
  if now - st.lastEventReq > minSummaryInterval then ([], st)
  else (st.folders, { st with folders := [] })

/-- An event emitted by the service on the event bus: `events.FolderSummary`
with the folder and its record, or `events.FolderCompletion` with the
completion payload tagged by folder and device. -/
inductive EventOut where
  | folderSummary : String → SummaryData → EventOut
  | folderCompletion : String → String → Int → EventOut

/-- Go `sendSummary(folder)`: compute the summary (silently giving up on
error), emit the `FolderSummary` event, then for each configured device of
the folder that is not ourselves and is connected, emit a
`FolderCompletion` event. -/
def sendSummary (cfg : Config) (env : ModelEnv) (selfId : String)
    (folder : String) : List EventOut :=
  match Summary cfg env folder with
  | Except.error _ => []
  | Except.ok data =>
    EventOut.folderSummary folder data ::
      (cfg.foldersIndex folder).devices.filterMap (fun devCfg =>
        if devCfg.deviceID = selfId then none
        else if env.connection devCfg.deviceID = false then none
        else some (EventOut.folderCompletion folder devCfg.deviceID
          (env.completion devCfg.deviceID folder)))

/-- One `<-pump.C` iteration of Go `calculateSummaries`: drain
`foldersToHandle` and send a summary for each drained folder, returning
the emitted events and the state after the drain. -/
def calculateSummariesTick (cfg : Config) (env : ModelEnv) (selfId : String)
    (now : Int) (st : ServiceState) : List EventOut × ServiceState :=
  let drained := foldersToHandle now st
  (drained.1.flatMap (sendSummary cfg env selfId), drained.2)

/-- The timer reset of `calculateSummaries`:
`wait := 2*time.Since(t0) + pumpInterval`. -/
def calculateSummariesWait (elapsed : Int) : Int :=
  2 * elapsed + pumpInterval

/-- The instant at which the next tick fires: the timer is reset at
`t0 + elapsed` (when the batch ends) to go off `calculateSummariesWait
elapsed` later. -/
def nextTickTime (t0 elapsed : Int) : Int :=
  (t0 + elapsed) + calculateSummariesWait elapsed

/-- An event received from the event bus, one constructor per subscribed
`events.EventType`; payloads are the fields `processUpdate` reads. -/
inductive EventIn where
  | localIndexUpdated : String → EventIn
  | remoteIndexUpdated : String → EventIn
  | stateChanged : String → String → String → EventIn
  | remoteDownloadProgress : String → EventIn
  | deviceConnected : String → EventIn
  | folderWatchStateChanged : String → EventIn
  | downloadProgress : List String → EventIn
deriving DecidableEq, Repr

/-- Go `processUpdate(ev)`.  The `immediateReady` flag is whether the
non-blocking send on `c.immediate` would be accepted (a receiver is
ready); the second component of the result is the folder handed over on
the immediate channel, if any. -/
def processUpdate (cfg : Config) (immediateReady : Bool)
    (st : ServiceState) (ev : EventIn) : ServiceState × Option String :=
  match ev with
  | EventIn.deviceConnected devId =>
      ({ st with folders :=
          cfg.folders.foldl (fun acc fc =>
            if fc.devices.any (fun d => d.deviceID == devId) then
              dirtyInsert acc fc.id
            else acc) st.folders }, none)
  | EventIn.downloadProgress fs =>
      ({ st with folders := fs.foldl dirtyInsert st.folders }, none)
  | EventIn.stateChanged folder fromState toState =>
      if toState ≠ "idle" then (st, none)
      else if fromState ≠ "syncing" ∧ fromState ≠ "sync-preparing" then
        (st, none)
      else if immediateReady then
        ({ st with folders := dirtyDelete st.folders folder }, some folder)
      else
        ({ st with folders := dirtyInsert st.folders folder }, none)
  | EventIn.localIndexUpdated folder =>
      ({ st with folders := dirtyInsert st.folders folder }, none)
  | EventIn.remoteIndexUpdated folder =>
      ({ st with folders := dirtyInsert st.folders folder }, none)
  | EventIn.remoteDownloadProgress folder =>
      ({ st with folders := dirtyInsert st.folders folder }, none)
  | EventIn.folderWatchStateChanged folder =>
      ({ st with folders := dirtyInsert st.folders folder }, none)

/-- Marking a folder dirty `n` times in a row (the Go map insert of
`processUpdate`, repeated). -/
def markDirtyN (s : List String) (f : String) : Nat → List String
  | 0 => s
  | n + 1 => dirtyInsert (markDirtyN s f n) f

/-- Whether an emitted event is the summary event for the given folder. -/
def isSummaryFor (folder : String) : EventOut → Bool
  | EventOut.folderSummary f _ => f == folder
  | EventOut.folderCompletion _ _ _ => false

/-! Concrete collaborators used to instantiate the theorems below on
closed inputs. -/

/-- A concrete snapshot: 100 needed bytes, 7 needed deletions. -/
def snapEx : DBSnapshot :=
  { globalSize := { files := 10, directories := 2, symlinks := 1, deleted := 3, bytes := 1000 }
    localSize := { files := 8, directories := 2, symlinks := 1, deleted := 2, bytes := 800 }
    needSize := { files := 2, directories := 0, symlinks := 0, deleted := 7, bytes := 100 }
    receiveOnlyChangedSize := { files := 1, directories := 0, symlinks := 0, deleted := 0, bytes := 5 }
    localSequence := 11
    remoteSequence := 22 }

/-- A concrete folder configuration: shared with ourselves (device id
"self"), "A", "B" and "C", with ignore-deletes set. -/
def folderCfgEx : FolderCfg :=
  { id := "docs"
    devices := [{ deviceID := "self" }, { deviceID := "A" },
      { deviceID := "B" }, { deviceID := "C" }]
    ignoreDelete := true
    folderType := FolderType.sendReceive }

/-- A concrete configuration holding just `folderCfgEx`. -/
def cfgEx : Config := { folders := [folderCfgEx] }

/-- A concrete model: healthy queries, 150 progress bytes completed,
devices "A" and "B" connected, "C" disconnected. -/
def envEx : ModelEnv :=
  { dbSnapshot := fun _ => Except.ok snapEx
    folderErrors := fun _ => ([], none)
    folderProgressBytesCompleted := fun _ => 150
    state := fun _ => ("idle", 5, none)
    getIgnores := fun _ => []
    watchError := fun _ => none
    connection := fun d => d == "A" || d == "B"
    completion := fun _ _ => 42 }

/-- `envEx` with a failing sync-state query. -/
def envStateErr : ModelEnv :=
  { envEx with state := fun _ => ("", 0, some "state query failed") }

/-- `envEx` with a failing database-snapshot query. -/
def envDbErr : ModelEnv :=
  { envEx with dbSnapshot := fun _ => Except.error "database closed" }

/-- Any successful `Summary` value is exactly the record built by
`buildSummary` from the snapshot and the error list. -/
theorem summary_ok_eq (cfg : Config) (env : ModelEnv) (folder : String)
    (snap : DBSnapshot) (data : SummaryData)
    (h1 : env.dbSnapshot folder = Except.ok snap)
    (h2 : Summary cfg env folder = Except.ok data) :
    data = buildSummary cfg env folder snap (env.folderErrors folder).1 := by
  unfold Summary at h2
  rw [h1] at h2
  dsimp only at h2
  cases hfe : (env.folderErrors folder).2 with
  | none => rw [hfe] at h2; exact (Except.ok.inj h2).symm
  | some fe =>
    cases fe with
    | folderPaused => rw [hfe] at h2; exact (Except.ok.inj h2).symm
    | folderNotRunning => rw [hfe] at h2; exact (Except.ok.inj h2).symm
    | other m => rw [hfe] at h2; exact absurd h2 (by simp)

/-- C2: `Summary(folder)` returns an error exactly when the database
snapshot query fails or the folder-error query fails with a cause other
than the paused / not-running sentinels; a failing sync-state query never
causes an error return — the record is still produced with the error text
embedded in its `error` field. -/
theorem C2_summary_error_conditions (cfg : Config) (env : ModelEnv)
    (folder : String) :
    ((∃ e, Summary cfg env folder = Except.error e) ↔
      ((∃ m, env.dbSnapshot folder = Except.error m) ∨
       (∃ m, (env.folderErrors folder).2 = some (FolderError.other m)))) ∧
    (∀ data, Summary cfg env folder = Except.ok data →
      data.error = (env.state folder).2.2) := by
  constructor
  · constructor
    · rintro ⟨e, he⟩
      unfold Summary at he
      cases hdb : env.dbSnapshot folder with
      | error m => exact Or.inl ⟨m, rfl⟩
      | ok snap =>
        rw [hdb] at he; dsimp only at he
        cases hfe : (env.folderErrors folder).2 with
        | none => rw [hfe] at he; simp at he
        | some fe =>
          cases fe with
          | folderPaused => rw [hfe] at he; simp at he
          | folderNotRunning => rw [hfe] at he; simp at he
          | other m => exact Or.inr ⟨m, rfl⟩
    · rintro (⟨m, hm⟩ | ⟨m, hm⟩)
      · exact ⟨SummaryError.dbError m, by unfold Summary; rw [hm]⟩
      · cases hdb : env.dbSnapshot folder with
        | error m2 =>
            exact ⟨SummaryError.dbError m2, by unfold Summary; rw [hdb]⟩
        | ok snap =>
            exact ⟨SummaryError.folderErrorsError m,
              by unfold Summary; rw [hdb]; dsimp only; rw [hm]⟩
  · intro data hok
    cases hdb : env.dbSnapshot folder with
    | error m => unfold Summary at hok; rw [hdb] at hok; simp at hok
    | ok snap =>
      have hd := summary_ok_eq cfg env folder snap data hdb hok
      subst hd
      simp [buildSummary]

/-- Witness for C2 at concrete collaborators: a failing state query with
message "state query failed" on otherwise healthy queries. -/
theorem C2_summary_error_conditions_witness :
    ((∃ e, Summary cfgEx envStateErr ("docs") = Except.error e) ↔
      ((∃ m, envStateErr.dbSnapshot ("docs") = Except.error m) ∨
       (∃ m, (envStateErr.folderErrors ("docs")).2 =
          some (FolderError.other m)))) ∧
    (∀ data, Summary cfgEx envStateErr ("docs") = Except.ok data →
      data.error = (envStateErr.state ("docs")).2.2) :=
  C2_summary_error_conditions cfgEx envStateErr ("docs")

/-- C3: the published `needBytes` is the snapshot's needed bytes minus the
folder's progress-bytes-completed, clamped below at zero, and is never
negative. -/
theorem C3_needBytes_clamped (cfg : Config) (env : ModelEnv)
    (folder : String) (snap : DBSnapshot) (data : SummaryData)
    (h1 : env.dbSnapshot folder = Except.ok snap)
    (h2 : Summary cfg env folder = Except.ok data) :
    data.needBytes =
      max 0 (snap.needSize.bytes - env.folderProgressBytesCompleted folder) ∧
    0 ≤ data.needBytes := by
  have hd := summary_ok_eq cfg env folder snap data h1 h2
  subst hd
  simp only [buildSummary]
  constructor
  · split <;> omega
  · split <;> omega

/-- Witness for C3: needed bytes 100, completed bytes 150, so the
published value is clamped to `max 0 (100 - 150) = 0`. -/
theorem C3_needBytes_clamped_witness :
    (buildSummary cfgEx envEx ("docs") snapEx []).needBytes =
      max 0 (snapEx.needSize.bytes -
        envEx.folderProgressBytesCompleted ("docs")) ∧
    0 ≤ (buildSummary cfgEx envEx ("docs") snapEx []).needBytes :=
  C3_needBytes_clamped cfgEx envEx ("docs") snapEx
    (buildSummary cfgEx envEx ("docs") snapEx []) rfl rfl

/-- C6: when the folder's configuration exists and sets ignore-deletes,
the published `needDeletes` is 0 regardless of the snapshot's needed
deletions. -/
theorem C6_ignore_deletes (cfg : Config) (env : ModelEnv) (folder : String)
    (fc : FolderCfg) (data : SummaryData)
    (hc : cfg.folder folder = some fc) (hid : fc.ignoreDelete = true)
    (hok : Summary cfg env folder = Except.ok data) :
    data.needDeletes = 0 := by
  cases hdb : env.dbSnapshot folder with
  | error m => unfold Summary at hok; rw [hdb] at hok; simp at hok
  | ok snap =>
    have hd := summary_ok_eq cfg env folder snap data hdb hok
    subst hd
    simp [buildSummary, hc, hid]

/-- Witness for C6: `cfgEx` sets ignore-deletes on folder "docs" and
`snapEx` has 7 needed deletions; the published value is 0. -/
theorem C6_ignore_deletes_witness :
    snapEx.needSize.deleted = 7 ∧
    (buildSummary cfgEx envEx ("docs") snapEx []).needDeletes = 0 :=
  ⟨rfl, C6_ignore_deletes cfgEx envEx ("docs") folderCfgEx
    (buildSummary cfgEx envEx ("docs") snapEx []) rfl rfl rfl⟩

/-- C8: the timer reset value is `2*elapsed + pumpInterval`, so for a
batch of nonnegative duration `d` the next tick fires no sooner than
`2*d + pumpInterval` after the batch started. -/
theorem C8_self_throttle (t0 d : Int) (h : 0 ≤ d) :
    calculateSummariesWait d = 2 * d + pumpInterval ∧
    t0 + (2 * d + pumpInterval) ≤ nextTickTime t0 d := by
  unfold nextTickTime calculateSummariesWait pumpInterval
  omega

/-- Witness for C8 at `t0 = 0`, `d = 5`. -/
theorem C8_self_throttle_witness :
    (0 : Int) ≤ 5 ∧
    (calculateSummariesWait 5 = 2 * 5 + pumpInterval ∧
     0 + (2 * 5 + pumpInterval) ≤ nextTickTime 0 5) :=
  ⟨by decide, C8_self_throttle 0 5 (by decide)⟩

/-- C9: a successful summary also carries `inSyncFiles = globalFiles -
needFiles` and `inSyncBytes = globalBytes - needBytes` (with `needBytes`
the already-clamped value). -/
theorem C9_in_sync_fields (cfg : Config) (env : ModelEnv) (folder : String)
    (snap : DBSnapshot) (data : SummaryData)
    (h1 : env.dbSnapshot folder = Except.ok snap)
    (h2 : Summary cfg env folder = Except.ok data) :
    data.inSyncFiles = snap.globalSize.files - snap.needSize.files ∧
    data.inSyncBytes = snap.globalSize.bytes - data.needBytes := by
  have hd := summary_ok_eq cfg env folder snap data h1 h2
  subst hd
  simp [buildSummary]

/-- Witness for C9 at the concrete collaborators. -/
theorem C9_in_sync_fields_witness :
    (buildSummary cfgEx envEx ("docs") snapEx []).inSyncFiles =
      snapEx.globalSize.files - snapEx.needSize.files ∧
    (buildSummary cfgEx envEx ("docs") snapEx []).inSyncBytes =
      snapEx.globalSize.bytes -
        (buildSummary cfgEx envEx ("docs") snapEx []).needBytes :=
  C9_in_sync_fields cfgEx envEx ("docs") snapEx
    (buildSummary cfgEx envEx ("docs") snapEx []) rfl rfl

/-- C1, counterexample: with the liveness timestamp one minute and a
nanosecond stale and "docs" dirty, the tick emits no events — but the
dirty-set is NOT drained: it still holds "docs" afterwards, refuting the
claim that the tick leaves it empty. -/
theorem C1_counterexample :
    (calculateSummariesTick cfgEx envEx ("self") (minSummaryInterval + 1)
        { folders := ["docs"], lastEventReq := 0 }).1 = [] ∧
    (calculateSummariesTick cfgEx envEx ("self") (minSummaryInterval + 1)
        { folders := ["docs"], lastEventReq := 0 }).2.folders = ["docs"] ∧
    (["docs"] : List String) ≠ [] := by
  refine ⟨rfl, rfl, by simp⟩

/-- C1, amended: when no liveness notification arrived within the last
minute, a scheduled tick triggers no summary computation and emits no
events, and leaves the whole state — including the dirty-set — unchanged
(the dirty-set is not drained). -/
theorem C1_liveness_gating (cfg : Config) (env : ModelEnv)
    (selfId : String) (now : Int) (st : ServiceState)
    (h : now - st.lastEventReq > minSummaryInterval) :
    calculateSummariesTick cfg env selfId now st = ([], st) := by
  unfold calculateSummariesTick foldersToHandle
  simp [h]

/-- Witness for the amended C1 at a concrete stale state. -/
theorem C1_liveness_gating_witness :
    (minSummaryInterval + 1) -
        (ServiceState.mk ["docs"] 0).lastEventReq > minSummaryInterval ∧
    calculateSummariesTick cfgEx envEx ("self") (minSummaryInterval + 1)
        { folders := ["docs"], lastEventReq := 0 } =
      ([], { folders := ["docs"], lastEventReq := 0 }) :=
  ⟨by decide, C1_liveness_gating cfgEx envEx ("self") (minSummaryInterval + 1)
    { folders := ["docs"], lastEventReq := 0 } (by decide)⟩

/-- C4: on a state-changed event the classifier acts only when the new
state is "idle" and the prior state was "syncing" or "sync-preparing";
then, if the non-blocking immediate send is accepted the folder is removed
from the dirty-set and handed over, and if it would block the folder is
instead inserted into the dirty-set. -/
theorem C4_state_changed_classification (cfg : Config) (ready : Bool)
    (st : ServiceState) (folder fromState toState : String) :
    ((toState ≠ "idle" ∨
        (fromState ≠ "syncing" ∧ fromState ≠ "sync-preparing")) →
      processUpdate cfg ready st
        (EventIn.stateChanged folder fromState toState) = (st, none)) ∧
    (toState = "idle" →
      (fromState = "syncing" ∨ fromState = "sync-preparing") →
      (ready = true →
        processUpdate cfg ready st
            (EventIn.stateChanged folder fromState toState) =
          ({ st with folders := dirtyDelete st.folders folder },
            some folder)) ∧
      (ready = false →
        processUpdate cfg ready st
            (EventIn.stateChanged folder fromState toState) =
          ({ st with folders := dirtyInsert st.folders folder }, none))) := by
  have hnot : ∀ h : toState = "idle",
      ∀ hf : fromState = "syncing" ∨ fromState = "sync-preparing",
      ¬ (fromState ≠ "syncing" ∧ fromState ≠ "sync-preparing") := by
    rintro h (rfl | rfl) ⟨a, b⟩
    · exact a rfl
    · exact b rfl
  constructor
  · rintro (h | ⟨h1, h2⟩)
    · unfold processUpdate
      dsimp only
      rw [if_pos h]
    · unfold processUpdate
      dsimp only
      by_cases ht : toState = "idle"
      · rw [if_neg (by simp [ht]), if_pos ⟨h1, h2⟩]
      · rw [if_pos ht]
  · intro ht hf
    constructor
    · rintro rfl
      unfold processUpdate
      dsimp only
      rw [if_neg (by simp [ht]), if_neg (hnot ht hf), if_pos rfl]
    · rintro rfl
      unfold processUpdate
      dsimp only
      rw [if_neg (by simp [ht]), if_neg (hnot ht hf),
        if_neg (by simp)]

/-- Witness for C4 at a concrete idle transition out of "syncing". -/
theorem C4_state_changed_classification_witness :
    ((("idle" : String) ≠ "idle" ∨
        (("syncing" : String) ≠ "syncing" ∧
         ("syncing" : String) ≠ "sync-preparing")) →
      processUpdate cfgEx true (ServiceState.mk ["docs"] 0)
        (EventIn.stateChanged ("docs") ("syncing") ("idle")) =
        (ServiceState.mk ["docs"] 0, none)) ∧
    (("idle" : String) = "idle" →
      (("syncing" : String) = "syncing" ∨
       ("syncing" : String) = "sync-preparing") →
      (true = true →
        processUpdate cfgEx true (ServiceState.mk ["docs"] 0)
            (EventIn.stateChanged ("docs") ("syncing") ("idle")) =
          ({ ServiceState.mk ["docs"] 0 with
              folders := dirtyDelete ["docs"] ("docs") }, some ("docs"))) ∧
      (true = false →
        processUpdate cfgEx true (ServiceState.mk ["docs"] 0)
            (EventIn.stateChanged ("docs") ("syncing") ("idle")) =
          ({ ServiceState.mk ["docs"] 0 with
              folders := dirtyInsert ["docs"] ("docs") }, none))) :=
  C4_state_changed_classification cfgEx true (ServiceState.mk ["docs"] 0)
    ("docs") ("syncing") ("idle")

/-- C10: for a folder absent from the configuration, `Summary` still
succeeds (omitting the ignore-deletes and receive-only adjustments) and
`sendSummary` emits the summary event followed by zero completion
events. -/
theorem C10_unconfigured_folder (cfg : Config) (env : ModelEnv)
    (selfId folder : String) (snap : DBSnapshot)
    (hcfg : cfg.folder folder = none)
    (hdb : env.dbSnapshot folder = Except.ok snap)
    (herr : ∀ m, (env.folderErrors folder).2 ≠ some (FolderError.other m)) :
    ∃ data, Summary cfg env folder = Except.ok data ∧
      sendSummary cfg env selfId folder =
        [EventOut.folderSummary folder data] ∧
      data.receiveOnlyChanged = none ∧
      data.needDeletes = snap.needSize.deleted := by
  have hok : Summary cfg env folder =
      Except.ok (buildSummary cfg env folder snap
        (env.folderErrors folder).1) := by
    unfold Summary
    rw [hdb]; dsimp only
    cases hfe : (env.folderErrors folder).2 with
    | none => rfl
    | some fe =>
      cases fe with
      | folderPaused => rfl
      | folderNotRunning => rfl
      | other m => exact absurd hfe (herr m)
  refine ⟨_, hok, ?_, ?_, ?_⟩
  · unfold sendSummary
    rw [hok]
    simp [Config.foldersIndex, hcfg, emptyFolderCfg]
  · simp [buildSummary, hcfg]
  · simp [buildSummary, hcfg]

/-- Witness for C10: folder "other" is not in `cfgEx`. -/
theorem C10_unconfigured_folder_witness :
    ∃ data, Summary cfgEx envEx ("other") = Except.ok data ∧
      sendSummary cfgEx envEx ("self") ("other") =
        [EventOut.folderSummary ("other") data] ∧
      data.receiveOnlyChanged = none ∧
      data.needDeletes = snapEx.needSize.deleted :=
  C10_unconfigured_folder cfgEx envEx ("self") ("other") snapEx rfl rfl
    (fun _ h => Option.noConfusion h)

/-- C7: a publish emits the folder's summary event first, and emits a
completion event exactly for each configured device of the folder that is
not our own identity and is currently connected — never for ourselves or
for a disconnected device. -/
theorem C7_completion_targets (cfg : Config) (env : ModelEnv)
    (selfId folder : String) (data : SummaryData)
    (hok : Summary cfg env folder = Except.ok data) :
    (sendSummary cfg env selfId folder).head? =
      some (EventOut.folderSummary folder data) ∧
    (∀ dev comp,
      EventOut.folderCompletion folder dev comp ∈
          sendSummary cfg env selfId folder ↔
        ((∃ dc ∈ (cfg.foldersIndex folder).devices, dc.deviceID = dev) ∧
          dev ≠ selfId ∧ env.connection dev = true ∧
          comp = env.completion dev folder)) ∧
    (∀ e, e ∈ (sendSummary cfg env selfId folder).tail →
      ∃ dev comp, e = EventOut.folderCompletion folder dev comp) := by
  unfold sendSummary
  rw [hok]
  dsimp only
  refine ⟨rfl, ?_, ?_⟩
  · intro dev comp
    rw [List.mem_cons]
    constructor
    · rintro (h | h)
      · exact EventOut.noConfusion h
      · rcases List.mem_filterMap.mp h with ⟨dc, hdc, hf⟩
        by_cases h1 : dc.deviceID = selfId
        · rw [if_pos h1] at hf; exact Option.noConfusion hf
        · rw [if_neg h1] at hf
          by_cases h2 : env.connection dc.deviceID = false
          · rw [if_pos h2] at hf; exact Option.noConfusion hf
          · rw [if_neg h2] at hf
            obtain ⟨hfold, hdev, hcomp⟩ :=
              EventOut.folderCompletion.inj (Option.some.inj hf)
            subst hdev
            refine ⟨⟨dc, hdc, rfl⟩, h1, ?_, hcomp.symm⟩
            cases hco : env.connection dc.deviceID
            · exact absurd rfl (hco ▸ h2)
            · rfl
    · rintro ⟨⟨dc, hdc, rfl⟩, hne, hconn, rfl⟩
      right
      refine List.mem_filterMap.mpr ⟨dc, hdc, ?_⟩
      rw [if_neg hne, if_neg (by rw [hconn]; simp)]
  · intro e he
    rw [List.tail_cons] at he
    rcases List.mem_filterMap.mp he with ⟨dc, hdc, hf⟩
    by_cases h1 : dc.deviceID = selfId
    · rw [if_pos h1] at hf; exact Option.noConfusion hf
    · rw [if_neg h1] at hf
      by_cases h2 : env.connection dc.deviceID = false
      · rw [if_pos h2] at hf; exact Option.noConfusion hf
      · rw [if_neg h2] at hf
        exact ⟨dc.deviceID, env.completion dc.deviceID folder,
          (Option.some.inj hf).symm⟩

/-- Witness for C7: folder "docs" shared with self, "A", "B" (connected)
and "C" (disconnected). -/
theorem C7_completion_targets_witness :
    (sendSummary cfgEx envEx ("self") ("docs")).head? =
      some (EventOut.folderSummary ("docs")
        (buildSummary cfgEx envEx ("docs") snapEx [])) ∧
    (∀ dev comp,
      EventOut.folderCompletion ("docs") dev comp ∈
          sendSummary cfgEx envEx ("self") ("docs") ↔
        ((∃ dc ∈ (cfgEx.foldersIndex ("docs")).devices,
            dc.deviceID = dev) ∧
          dev ≠ "self" ∧ envEx.connection dev = true ∧
          comp = envEx.completion dev ("docs"))) ∧
    (∀ e, e ∈ (sendSummary cfgEx envEx ("self") ("docs")).tail →
      ∃ dev comp, e = EventOut.folderCompletion ("docs") dev comp) :=
  C7_completion_targets cfgEx envEx ("self") ("docs")
    (buildSummary cfgEx envEx ("docs") snapEx []) rfl

/-- The inserted folder is a member of the dirty-set. -/
theorem mem_dirtyInsert (s : List String) (f : String) :
    f ∈ dirtyInsert s f := by
  unfold dirtyInsert
  split
  · assumption
  · simp

/-- Dirty-set insertion is idempotent: inserting an already present
folder is a no-op, as for the Go map write. -/
theorem dirtyInsert_idem (s : List String) (f : String) :
    dirtyInsert (dirtyInsert s f) f = dirtyInsert s f :=
  if_pos (mem_dirtyInsert s f)

/-- Marking a folder dirty `n ≥ 1` times equals marking it once. -/
theorem markDirtyN_eq_dirtyInsert (s : List String) (f : String) :
    ∀ n, 1 ≤ n → markDirtyN s f n = dirtyInsert s f
  | 1, _ => rfl
  | n + 2, _ => by
      have ih := markDirtyN_eq_dirtyInsert s f (n + 1) (by omega)
      show dirtyInsert (markDirtyN s f (n + 1)) f = dirtyInsert s f
      rw [ih, dirtyInsert_idem]

/-- After inserting into a duplicate-free dirty-set the folder occurs in
it exactly once. -/
theorem count_dirtyInsert (s : List String) (f : String) (h : s.Nodup) :
    (dirtyInsert s f).count f = 1 := by
  unfold dirtyInsert
  split
  · exact List.count_eq_one_of_mem h (by assumption)
  · rw [List.count_append, List.count_eq_zero.mpr (by assumption)]
    simp

/-- A single `sendSummary` call for folder `g` contributes exactly one
summary event tagged `folder` when `g = folder` and its summary succeeds,
and none otherwise. -/
theorem countP_sendSummary_eq (cfg : Config) (env : ModelEnv)
    (selfId folder g : String) :
    (sendSummary cfg env selfId g).countP (isSummaryFor folder) =
      match Summary cfg env g with
      | Except.ok _ => if g = folder then 1 else 0
      | Except.error _ => 0 := by
  unfold sendSummary
  cases hs : Summary cfg env g with
  | error e => simp
  | ok data =>
    dsimp only
    rw [List.countP_cons]
    have hzero : List.countP (isSummaryFor folder)
        ((cfg.foldersIndex g).devices.filterMap fun devCfg =>
          if devCfg.deviceID = selfId then none
          else if env.connection devCfg.deviceID = false then none
          else some (EventOut.folderCompletion g devCfg.deviceID
            (env.completion devCfg.deviceID g))) = 0 := by
      rw [List.countP_eq_zero]
      intro e he
      rcases List.mem_filterMap.mp he with ⟨dc, hdc, hf⟩
      by_cases h1 : dc.deviceID = selfId
      · rw [if_pos h1] at hf; exact Option.noConfusion hf
      · rw [if_neg h1] at hf
        by_cases h2 : env.connection dc.deviceID = false
        · rw [if_pos h2] at hf; exact Option.noConfusion hf
        · rw [if_neg h2] at hf
          rw [← Option.some.inj hf]
          simp [isSummaryFor]
    rw [hzero]
    by_cases hg : g = folder
    · subst hg; simp [isSummaryFor]
    · simp [isSummaryFor, hg]

/-- Over a whole drained batch, the number of summary events tagged
`folder` equals the number of occurrences of `folder` in the batch,
provided `folder`'s summary succeeds. -/
theorem countP_flatMap_sendSummary (cfg : Config) (env : ModelEnv)
    (selfId folder : String) (data : SummaryData)
    (hok : Summary cfg env folder = Except.ok data) :
    ∀ fs : List String,
      (fs.flatMap (sendSummary cfg env selfId)).countP
          (isSummaryFor folder) = fs.count folder
  | [] => by simp
  | g :: fs => by
      rw [List.flatMap_cons, List.countP_append,
        countP_flatMap_sendSummary cfg env selfId folder data hok fs,
        countP_sendSummary_eq, List.count_cons]
      by_cases hg : g = folder
      · subst hg
        rw [hok]
        simp [Nat.add_comm]
      · cases hs : Summary cfg env g with
        | ok d => simp [hg, Ne.symm hg]
        | error e => simp [hg, Ne.symm hg]

/-- C5: marking the same folder dirty `n ≥ 1` times between two drains
equals marking it once, the next live drain yields the folder exactly
once, and that tick publishes exactly one summary event for it. -/
theorem C5_idempotent_marking (cfg : Config) (env : ModelEnv)
    (selfId : String) (now : Int) (st : ServiceState) (folder : String)
    (data : SummaryData) (n : Nat)
    (hn : 1 ≤ n) (hnd : st.folders.Nodup)
    (hlive : now - st.lastEventReq ≤ minSummaryInterval)
    (hok : Summary cfg env folder = Except.ok data) :
    markDirtyN st.folders folder n = dirtyInsert st.folders folder ∧
    (foldersToHandle now
        { st with folders := markDirtyN st.folders folder n }).1.count
      folder = 1 ∧
    (calculateSummariesTick cfg env selfId now
        { st with folders := markDirtyN st.folders folder n }).1.countP
      (isSummaryFor folder) = 1 := by
  have hm := markDirtyN_eq_dirtyInsert st.folders folder n hn
  have hnotgt : ¬ (now - st.lastEventReq > minSummaryInterval) :=
    not_lt.mpr hlive
  refine ⟨hm, ?_, ?_⟩
  · rw [hm]
    unfold foldersToHandle
    rw [if_neg hnotgt]
    exact count_dirtyInsert _ _ hnd
  · rw [hm]
    unfold calculateSummariesTick foldersToHandle
    rw [if_neg hnotgt]
    dsimp only
    rw [countP_flatMap_sendSummary cfg env selfId folder data hok]
    exact count_dirtyInsert _ _ hnd

/-- Witness for C5: marking "docs" dirty three times from the empty
dirty-set, with a fresh liveness timestamp. -/
theorem C5_idempotent_marking_witness :
    markDirtyN [] ("docs") 3 = dirtyInsert [] ("docs") ∧
    (foldersToHandle 0
        (ServiceState.mk (markDirtyN [] ("docs") 3) 0)).1.count
      ("docs") = 1 ∧
    (calculateSummariesTick cfgEx envEx ("self") 0
        (ServiceState.mk (markDirtyN [] ("docs") 3) 0)).1.countP
      (isSummaryFor ("docs")) = 1 :=
  C5_idempotent_marking cfgEx envEx ("self") 0 (ServiceState.mk [] 0)
    ("docs") (buildSummary cfgEx envEx ("docs") snapEx []) 3 (by decide)
    List.nodup_nil (by decide) rfl

end FolderSummary
